import Mathlib

/-!
Verification of the traffic-flow-test engine (`task.py`, `tftbase.py`,
`netperf.py`, `evaluator.py`, `trafficFlowTests.py`).

The Python code is shallowly embedded: stateful objects become Lean
structures with explicit state passing, Python exceptions become
`Except PyErr`, and the scheduler-dependent observations of a background
thread (`Thread.is_alive`, whether the thread action has completed by the
time its result is read) are oracle parameters of the embedded functions.
-/

/-- Python exceptions raised by the embedded code paths. -/
inductive PyErr where
  | assertFail
  | typeError
  | keyError
  | runtimeError (msg : String)
  | valueError (msg : String)
  | exception (msg : String)
  | notImplementedError (msg : String)
deriving DecidableEq

/-- `True` exactly on `Except.ok`. -/
def exceptOk {ε α : Type} : Except ε α → Bool
  | .ok _ => true
  | .error _ => false

/-- The five lifecycle states of `_OperationState` in `task.py`. -/
inductive OperationState where
  | NEW
  | STARTING
  | RUNNING
  | STOPPING
  | STOPPED
deriving DecidableEq

/-- A Python enum `value`: in `task.py`, `NEW = (1,)`, `STARTING = (2,)` and
`RUNNING = (3,)` carry trailing commas and are 1-tuples, while
`STOPPING = 4` and `STOPPED = 5` are plain ints. -/
inductive PyEnumVal where
  | intv (n : Nat)
  | tuple1 (n : Nat)
deriving DecidableEq

/-- The `.value` of each `_OperationState` member, exactly as written in the
source (tuples for the first three, ints for the last two). -/
def stateValue : OperationState → PyEnumVal
  | .NEW => .tuple1 1
  | .STARTING => .tuple1 2
  | .RUNNING => .tuple1 3
  | .STOPPING => .intv 4
  | .STOPPED => .intv 5

/-- Python `a > b` on enum values: comparing two ints or two tuples works,
comparing an int with a tuple raises `TypeError`. -/
def pyGtValue : PyEnumVal → PyEnumVal → Except PyErr Bool
  | .intv a, .intv b => .ok (decide (b < a))
  | .tuple1 a, .tuple1 b => .ok (decide (b < a))
  | _, _ => .error .typeError

/-- Modelled from the spec: the output class hierarchy of the newer
`tftbase` module that `task.py` imports (`BaseOutput` with a success flag,
`AggregatableOutput`, `FlowTestOutput`, `PluginOutput`); these classes are
referenced by `src/task.py` but their defining module version is not under
`src/` (the `src/tftbase.py` present is an older revision without them).
The primary flow-test output; `ident` stands for its payload. -/
structure FlowTestOutputM where
  success : Bool
  msg : Option String := none
  ident : Nat := 0
deriving DecidableEq

/-- Modelled from the spec: a secondary (plugin) output in the newer
`tftbase` hierarchy referenced by `src/task.py` (see `FlowTestOutputM`). -/
structure PluginOutputM where
  success : Bool
  msg : Option String := none
  plugin_name : String := ""
deriving DecidableEq

/-- Modelled from the spec: a value of class `BaseOutput` or one of its
subclasses, as used by `src/task.py` (see `FlowTestOutputM`). `base` is a
plain (non-aggregatable) `BaseOutput`. -/
inductive MOutput where
  | base (success : Bool) (msg : Option String)
  | flowTest (f : FlowTestOutputM)
  | plugin (p : PluginOutputM)
deriving DecidableEq

/-- `isinstance(x, tftbase.AggregatableOutput)`: flow-test and plugin
outputs are aggregatable, a plain `BaseOutput` is not. -/
def MOutput.isAggregatable : MOutput → Bool
  | .base _ _ => false
  | .flowTest _ => true
  | .plugin _ => true

/-- `isinstance(x, tftbase.FlowTestOutput)`. -/
def MOutput.isFlowTest : MOutput → Bool
  | .flowTest _ => true
  | _ => false

/-- A Python value returned by a `thread_action`: either a `BaseOutput`
(sub)instance or some other object (`raw`), which `finish`'s
`assert isinstance(result, BaseOutput)` would reject. -/
inductive PyRes where
  | mout (o : MOutput)
  | raw (n : Nat)
deriving DecidableEq

/-- The four optional action slots of `TaskOperation.__init__`.
`collect_action` is a single Python callable that the source invokes with
one argument (the intermediate result) when a `thread_action` is set and
with no argument otherwise; the embedding passes `some r` resp. `none`.
`cancel_action` and `wait_ready` have purely external effects, so only
their presence is tracked. -/
structure OpConfig where
  log_name : String
  thread_action : Option (Unit → PyRes)
  collect_action : Option (Option PyRes → MOutput)
  has_cancel : Bool
  has_wait_ready : Bool

/-- The mutable state of a `TaskOperation`: whether `self._thread` has been
created, the `_state` field, and the `_intermediate_result` attribute
(`none` = attribute not set). -/
structure OpState where
  cfg : OpConfig
  threadStarted : Bool
  state : OperationState
  intermediate : Option PyRes

/-- `TaskOperation.__init__` (task.py lines 85-113): rejects a
configuration with neither `thread_action` nor `collect_action`, and a
`cancel_action` without `thread_action`; otherwise constructs the
operation in state `NEW` with no thread and no intermediate result. -/
def mk_task_operation (ln : String) (ta : Option (Unit → PyRes))
    (ca : Option (Option PyRes → MOutput)) (hc : Bool) (hw : Bool) :
    Except PyErr OpState :=
  if ta.isNone && ca.isNone then
    .error (.valueError "either thread_action or collect_action must be provided")
  else if hc && ta.isNone then
    .error (.valueError "cannot set cancel_action without thread_action")
  else
    .ok { cfg := { log_name := ln, thread_action := ta, collect_action := ca,
                   has_cancel := hc, has_wait_ready := hw },
          threadStarted := false, state := .NEW, intermediate := none }

/-- `TaskOperation.access_thread` (task.py lines 115-126): returns whether a
thread exists after the call, spawning it if a `thread_action` is
configured and none was started yet. -/
def access_thread (s : OpState) : Bool × OpState :=
  if s.threadStarted then (true, s)
  else if s.cfg.thread_action.isSome then (true, { s with threadStarted := true })
  else (false, s)

/-- `TaskOperation._run_thread_action` (task.py lines 128-145): asserts the
intermediate-result attribute is not yet set, runs the action, and writes
the result once under the lock (re-asserting it is still unset). An
exception inside the action terminates the whole process (`os._exit`),
which no claim exercises, so the embedded action is total. -/
def run_thread_action (s : OpState) : Except PyErr OpState :=
  if s.intermediate.isSome then .error .assertFail
  else
    match s.cfg.thread_action with
    | none => .error .assertFail
    | some act =>
        let r := act ()
        if s.intermediate.isSome then .error .assertFail
        else .ok { s with intermediate := some r }

/-- `TaskOperation._start_wait_ready` (task.py lines 154-163). `s1` is the
state observed under the first lock, `s2` the state observed under the
second lock after the external `wait_ready` callback returned (another
thread may have advanced the state in between). Returns the resulting
state, or the Python exception the comparison raises. -/
def start_wait_ready (s1 s2 : OperationState) : Except PyErr OperationState :=
  match pyGtValue (stateValue s1) (stateValue .STARTING) with
  | .error e => .error e
  | .ok true => .ok s1
  | .ok false =>
      if s1 = .STARTING then
        .ok (if s2 = .STARTING then .RUNNING else s2)
      else .error .assertFail

/-- Observable events of `TaskOperation.finish`: `th.join(t)` with its
bound (`none` = unbounded) and the invocation of the cancel action. -/
inductive FinishEv where
  | join (t : Option ℚ)
  | cancel
deriving DecidableEq

/-- Second half of `TaskOperation.finish` (task.py lines 213-237): moves to
`STOPPED` and computes the returned `BaseOutput`. `finished` tells whether
the thread action had completed (and hence written its result) by the time
the lock is taken. -/
def finishTail2 (s : OpState) (evs : List FinishEv) (finished : Bool) :
    List FinishEv × Except PyErr (MOutput × OpState) :=
  match s.cfg.thread_action with
  | none =>
      match s.cfg.collect_action with
      | none => (evs, .error .assertFail)
      | some cb => (evs, .ok (cb none, { s with state := OperationState.STOPPED }))
  | some act =>
      match (if s.intermediate.isSome then s.intermediate
             else if finished then some (act ()) else none) with
      | none =>
          (evs, .ok (MOutput.base false (some "failure to get thread result"),
                     { s with state := OperationState.STOPPED }))
      | some iv =>
          match s.cfg.collect_action with
          | none =>
              match iv with
              | .mout o =>
                  (evs, .ok (o, { s with state := OperationState.STOPPED,
                                         intermediate := some iv }))
              | .raw _ => (evs, .error .assertFail)
          | some cb =>
              (evs, .ok (cb (some iv), { s with state := OperationState.STOPPED,
                                                intermediate := some iv }))

/-- State bookkeeping of `TaskOperation.finish` lines 202-211: with a
thread the state must be `STOPPING`, without one it must still be
`STARTING` or `RUNNING`; then the operation becomes `STOPPED`. -/
def finishTail (th : Bool) (s : OpState) (evs : List FinishEv)
    (finished : Bool) : List FinishEv × Except PyErr (MOutput × OpState) :=
  if th then
    if s.state = OperationState.STOPPING then finishTail2 s evs finished
    else (evs, .error .assertFail)
  else
    if s.state = OperationState.STARTING ∨ s.state = OperationState.RUNNING then
      finishTail2 s evs finished
    else (evs, .error .assertFail)

/-- The join/cancel phase of `TaskOperation.finish` (task.py lines
181-196), entered with the state already moved to `STOPPING`: with a
cancel action the first join gets a zero bound, otherwise the full
`timeout`; a thread still alive after the joins raises `RuntimeError`. -/
def finishJoins (s1 : OpState) (timeout : Option ℚ) (alive : Nat → Bool)
    (finished : Bool) : List FinishEv × Except PyErr (MOutput × OpState) :=
  if alive 0 then
    if s1.cfg.has_cancel then
      if alive 1 then
        ([FinishEv.join (some 0), FinishEv.cancel, FinishEv.join timeout],
         .error (.runtimeError "Thread did not terminate within timeout"))
      else
        finishTail true s1
          [FinishEv.join (some 0), FinishEv.cancel, FinishEv.join timeout] finished
    else
      if alive 1 then
        ([FinishEv.join timeout],
         .error (.runtimeError "Thread did not terminate within timeout"))
      else finishTail true s1 [FinishEv.join timeout] finished
  else
    finishTail true s1
      [FinishEv.join (if s1.cfg.has_cancel then some 0 else timeout)] finished

/-- `TaskOperation.finish` (task.py lines 172-237). `alive k` is the value
of the `k`-th `th.is_alive()` sample; `finished` is whether the thread
action completed before the final lock. The Python `RuntimeError` message
interpolates `log_name` and the timeout, elided here. -/
def finish (s0 : OpState) (timeout : Option ℚ) (alive : Nat → Bool)
    (finished : Bool) : List FinishEv × Except PyErr (MOutput × OpState) :=
  match access_thread s0 with
  | (true, s) =>
      if s.state = OperationState.STARTING ∨ s.state = OperationState.RUNNING then
        finishJoins { s with state := OperationState.STOPPING } timeout alive finished
      else ([], .error .assertFail)
  | (false, s) => finishTail false s [] finished

/-- The `BaseOutput` returned by a `finish` run, if it returned. -/
def finishOutput (r : List FinishEv × Except PyErr (MOutput × OpState)) :
    Option MOutput :=
  match r.2 with
  | .ok (o, _) => some o
  | .error _ => none

/-- The exception raised by a `finish` run, if any. -/
def finishErr (r : List FinishEv × Except PyErr (MOutput × OpState)) :
    Option PyErr :=
  match r.2 with
  | .ok _ => none
  | .error e => some e

/-- Modelled from the spec: the aggregated record `TftAggregateOutput` of
the newer `tftbase` revision that `src/task.py` writes into (one optional
primary flow-test slot plus an ordered list of plugin outputs); the
defining module version is not under `src/`. -/
structure MAggOut where
  flow_test : Option FlowTestOutputM := none
  plugins : List PluginOutputM := []
deriving DecidableEq

/-- The aggregation-relevant state of a `Task` (task.py lines 240-513):
its finished result and its role's `_aggregate_output` override (`none`
means the subclass did not override it, so the base implementation, which
raises, would run). -/
structure TaskAggSt where
  result : Option MOutput
  subclassAgg : Option (MOutput → MAggOut → MAggOut)

/-- `Task.aggregate_output` (task.py lines 469-497): no-op without a
result or for a non-aggregatable result; a flow-test result must find the
primary slot empty or a `RuntimeError` is raised; a secondary aggregatable
result without an `_aggregate_output` override hits the base
implementation, which raises (task.py lines 499-513). -/
def task_aggregate_output (t : TaskAggSt) (out : MAggOut) :
    Except PyErr MAggOut :=
  match t.result with
  | none => .ok out
  | some r =>
      if ¬ r.isAggregatable then .ok out
      else
        match r with
        | .flowTest f =>
            if out.flow_test.isSome then
              .error (.runtimeError "There can only be one FlowTestOutput")
            else
              let out2 := { out with flow_test := some f }
              match t.subclassAgg with
              | none => .ok out2
              | some g => .ok (g r out2)
        | _ =>
            match t.subclassAgg with
            | none =>
                .error (.runtimeError "Task should not be called to aggregate output")
            | some g => .ok (g r out)

/-- The operation-owning state of a `Task` (task.py lines 247-249). The
remote-execution and configuration fields are external collaborators and
are not part of the lifecycle state. -/
structure TaskSt where
  setup_operation : Option OpState
  task_operation : Option OpState
  result : Option MOutput

/-- `Task.finish_setup` (task.py lines 431-436): returns immediately if no
setup operation is stored; otherwise clears the stored operation first and
then finishes it with `timeout=5`. The second component reports the
`finish` call made, if any. -/
def task_finish_setup (t : TaskSt) (alive : Nat → Bool) (finished : Bool) :
    TaskSt × Option (List FinishEv × Except PyErr (MOutput × OpState)) :=
  match t.setup_operation with
  | none => (t, none)
  | some op =>
      ({ t with setup_operation := none }, some (finish op (some 5) alive finished))

/-- The `TestType` enum of `src/tftbase.py` (lines 17-23). -/
inductive TestType where
  | IPERF_TCP
  | IPERF_UDP
  | HTTP
  | NETPERF_TCP_STREAM
  | NETPERF_TCP_RR
deriving DecidableEq

/-- Python's `.name` of a `TestType` member. -/
def testTypeName : TestType → String
  | .IPERF_TCP => "IPERF_TCP"
  | .IPERF_UDP => "IPERF_UDP"
  | .HTTP => "HTTP"
  | .NETPERF_TCP_STREAM => "NETPERF_TCP_STREAM"
  | .NETPERF_TCP_RR => "NETPERF_TCP_RR"

/-- The `PodType` enum of `src/tftbase.py` (lines 25-28). -/
inductive PodType where
  | NORMAL
  | SRIOV
  | HOSTBACKED
deriving DecidableEq

/-- `PodInfo` of `src/tftbase.py` (lines 79-84). -/
structure PodInfo where
  name : String
  pod_type : PodType
  is_tenant : Bool
  index : Nat
deriving DecidableEq

/-- `TestMetadata` of `src/tftbase.py` (lines 104-128); `test_case_id`
carries the `TestCaseType` enum value (1..30). -/
structure TestMetadata where
  reverse : Bool
  test_case_id : Nat
  test_type : TestType
  server : PodInfo
  client : PodInfo
deriving DecidableEq

/-- A Python JSON-like value as stored in the `result` dict of an output
record (`dict[str, str | int]` by annotation, nested dicts and floats in
practice for iperf results). -/
inductive PyVal where
  | str (s : String)
  | int (z : Int)
  | num (q : ℚ)
  | vdict (d : List (String × PyVal))

/-- Association-list lookup mirroring Python `d[k]` / `k in d`. -/
def dictLookup (d : List (String × PyVal)) (k : String) : Option PyVal :=
  match d with
  | [] => none
  | (k2, v) :: rest => if k2 = k then some v else dictLookup rest k

/-- Subscripting a `PyVal` requires it to be a dict. -/
def asDict : PyVal → Option (List (String × PyVal))
  | .vdict d => some d
  | _ => none

/-- Using a `PyVal` as a number (int or float). -/
def asNum : PyVal → Option ℚ
  | .int z => some (z : ℚ)
  | .num q => some q
  | _ => none

/-- `BaseOutput` of `src/tftbase.py` (lines 131-140): a command string and
a result mapping; this revision carries no success flag. -/
structure BaseOutput where
  command : String
  result : List (String × PyVal)

/-- `IperfOutput` of `src/tftbase.py` (lines 143-158): a `BaseOutput`
(fields inlined) plus the flow-test metadata. -/
structure IperfOutput where
  command : String
  result : List (String × PyVal)
  tft_metadata : TestMetadata

/-- `PluginOutput` of `src/tftbase.py` (lines 161-164). -/
structure PluginOutput where
  command : String
  result : List (String × PyVal)
  plugin_metadata : List (String × String)
  name : String

/-- `TftAggregateOutput` of `src/tftbase.py` (lines 167-196): one optional
flow-test entry plus an ordered list of plugin entries. -/
structure TftAggregateOutput where
  flow_test : Option IperfOutput := none
  plugins : List PluginOutput := []

/-- `NetPerfClient.output` (netperf.py lines 116-126): asserts that the
stored `_output` is an `IperfOutput` (`none` models a value of any other
type) and then writes it into the primary slot unconditionally. -/
def netperf_client_output (o : Option IperfOutput) (out : TftAggregateOutput) :
    Except PyErr TftAggregateOutput :=
  match o with
  | none => .error .assertFail
  | some io => .ok { out with flow_test := some io }

/-- `Bitrate` of `src/evaluator.py` (lines 26-29), with exact rationals in
place of Python floats. -/
structure Bitrate where
  tx : ℚ
  rx : ℚ
deriving DecidableEq

/-- `Evaluator.is_passing` (evaluator.py lines 126-127). -/
def is_passing (threshold : ℚ) (b : Bitrate) : Bool :=
  decide (threshold ≤ b.tx) && decide (threshold ≤ b.rx)

/-- Largest `e : ℤ` with `10 ^ e ≤ a`, for `a > 0`. -/
def floorLog10 (a : ℚ) : ℤ :=
  if 1 ≤ a then (Nat.log 10 a.floor.toNat : ℤ)
  else -((Nat.clog 10 (1 / a).ceil.toNat : ℤ))

/-- Python `float(f"{x:.5g}")`: round to 5 significant decimal digits.
The embedding rounds the exact rational (ties away from the floor), while
CPython formats the nearest IEEE double with ties to even; no claim
depends on tie cases. -/
def round5g (q : ℚ) : ℚ :=
  if q = 0 then 0
  else
    let a : ℚ := |q|
    let e : ℤ := floorLog10 a
    let scale : ℚ := (10 : ℚ) ^ (e - 4)
    let m : ℤ := round (a / scale)
    (if q < 0 then (-1 : ℚ) else 1) * (m : ℚ) * scale

/-- `Evaluator.calculate_gbps_iperf_tcp` (evaluator.py lines 177-197): an
`error` key yields `Bitrate(0, 0)`; a missing `end`/`sum_sent`/
`sum_received` key is a `KeyError` caught and re-raised as `Exception`;
the `bits_per_second` lookups sit outside the `try` block, so their
`KeyError` propagates; subscripting a non-dict raises `TypeError`. -/
def calculate_gbps_iperf_tcp (result : List (String × PyVal)) :
    Except PyErr Bitrate :=
  if (dictLookup result "error").isSome then .ok ⟨0, 0⟩
  else
    match dictLookup result "end" with
    | none => .error (.exception "calculate_gbps_iperf_tcp(): failed to parse iperf test results")
    | some endv =>
        match asDict endv with
        | none => .error .typeError
        | some endd =>
            match dictLookup endd "sum_sent", dictLookup endd "sum_received" with
            | none, _ => .error (.exception "calculate_gbps_iperf_tcp(): failed to parse iperf test results")
            | some _, none => .error (.exception "calculate_gbps_iperf_tcp(): failed to parse iperf test results")
            | some ss, some sr =>
                match asDict ss, asDict sr with
                | some ssd, some srd =>
                    match dictLookup ssd "bits_per_second",
                          dictLookup srd "bits_per_second" with
                    | some bs, some br =>
                        match asNum bs, asNum br with
                        | some qs, some qr =>
                            .ok ⟨round5g (qs / 1000000000), round5g (qr / 1000000000)⟩
                        | _, _ => .error .typeError
                    | _, _ => .error .keyError
                | _, _ => .error .typeError

/-- `Evaluator.calculate_gbps_iperf_udp` (evaluator.py lines 199-209):
UDP tests only have sender traffic, the sent bitrate is used for both sides;
the `end`/`sum` lookups are unguarded, so a missing key is a `KeyError`. -/
def calculate_gbps_iperf_udp (result : List (String × PyVal)) :
    Except PyErr Bitrate :=
  if (dictLookup result "error").isSome then .ok ⟨0, 0⟩
  else
    match dictLookup result "end" with
    | none => .error .keyError
    | some endv =>
        match asDict endv with
        | none => .error .typeError
        | some endd =>
            match dictLookup endd "sum" with
            | none => .error .keyError
            | some sv =>
                match asDict sv with
                | none => .error .typeError
                | some sd =>
                    match dictLookup sd "bits_per_second" with
                    | none => .error .keyError
                    | some bs =>
                        match asNum bs with
                        | none => .error .typeError
                        | some qs =>
                            .ok ⟨round5g (qs / 1000000000), round5g (qs / 1000000000)⟩

/-- `Evaluator.calculate_gbps` (evaluator.py lines 143-156). -/
def calculate_gbps (result : List (String × PyVal)) (test_type : TestType) :
    Except PyErr Bitrate :=
  match test_type with
  | .IPERF_TCP => calculate_gbps_iperf_tcp result
  | .IPERF_UDP => calculate_gbps_iperf_udp result
  | .HTTP => .error (.notImplementedError "calculate_gbps_http is not yet implemented")
  | _ => .error (.exception "invalid test_type provided")

/-- One entry of the evaluator's parsed threshold config: the `Normal` and
`Reverse` thresholds of a test case. -/
structure ThresholdCfg where
  normal : ℚ
  reverse : ℚ
deriving DecidableEq

/-- Generic association-list lookup for the threshold config. -/
def cfgLookup {α β : Type} [DecidableEq α] (d : List (α × β)) (k : α) :
    Option β :=
  match d with
  | [] => none
  | (k2, v) :: rest => if k2 = k then some v else cfgLookup rest k

/-- `Evaluator.get_threshold` (evaluator.py lines 129-141):
`config[test_type.name][test_case_id.value][direction]`; a missing key is
caught and re-raised as `Exception`. -/
def get_threshold (config : List (String × List (Nat × ThresholdCfg)))
    (test_case_id : Nat) (test_type : TestType) (is_reverse : Bool) :
    Except PyErr ℚ :=
  match cfgLookup config (testTypeName test_type) with
  | none => .error (.exception "get_threshold(): Failed to parse evaluator config")
  | some m =>
      match cfgLookup m test_case_id with
      | none => .error (.exception "get_threshold(): Failed to parse evaluator config")
      | some tc => .ok (if is_reverse then tc.reverse else tc.normal)

/-- `TestResult` of `src/evaluator.py` (lines 48-64). -/
structure TestResult where
  test_id : Nat
  test_type : TestType
  reverse : Bool
  success : Bool
  bitrate_gbps : Bitrate
deriving DecidableEq

/-- `Evaluator._eval_flow_test` (evaluator.py lines 86-101): look up the
configured threshold for the run's metadata, compute the bitrate from the
run's raw result, and derive the success flag with `is_passing`. -/
def eval_flow_test (config : List (String × List (Nat × ThresholdCfg)))
    (run : IperfOutput) : Except PyErr TestResult :=
  match get_threshold config run.tft_metadata.test_case_id
      run.tft_metadata.test_type run.tft_metadata.reverse with
  | .error e => .error e
  | .ok threshold =>
      match calculate_gbps run.result run.tft_metadata.test_type with
      | .error e => .error e
      | .ok br =>
          .ok ⟨run.tft_metadata.test_case_id, run.tft_metadata.test_type,
               run.tft_metadata.reverse, is_passing threshold br, br⟩

/-- Modelled from the spec: the `SyncManager` arrival barrier used by
`trafficFlowTests.py` and `netperf.py` (`syncManager.py` is not under
`src/`). `reset(n)` fixes the cohort size, each `wait_on_barrier()` call
arrives; a caller is released exactly when its cohort of `n` arrivals is
complete, so an arrival beyond a full cohort waits for the next cohort. -/
structure SyncBarrier where
  n : Nat
  arrived : Nat
deriving DecidableEq

/-- Modelled from the spec: `SyncManager.reset(n)`. -/
def SyncBarrier.reset (n : Nat) : SyncBarrier := ⟨n, 0⟩

/-- Modelled from the spec: one `wait_on_barrier()` arrival. -/
def SyncBarrier.arrive (b : SyncBarrier) : SyncBarrier := ⟨b.n, b.arrived + 1⟩

/-- Modelled from the spec: whether the `i`-th caller (1-based, in order of
arrival) has been released by the barrier. -/
def SyncBarrier.released (b : SyncBarrier) (i : Nat) : Bool :=
  decide (b.n ≠ 0) && decide (((i + b.n - 1) / b.n) * b.n ≤ b.arrived)

/-- The barrier state after `m` calls to `wait_on_barrier()` following
`reset(n)`. -/
def afterCalls (n m : Nat) : SyncBarrier :=
  Nat.rec (SyncBarrier.reset n) (fun _ b => b.arrive) m

/-- A thread action returning a successful `BaseOutput`. -/
def actBase : Unit → PyRes := fun _ => PyRes.mout (MOutput.base true none)

/-- A collect action returning a successful `BaseOutput`. -/
def cbTrue : Option PyRes → MOutput := fun _ => MOutput.base true none

/-- Aliveness oracle: the thread never stops. -/
def aliveAlways : Nat → Bool := fun _ => true

/-- Aliveness oracle: the thread has already stopped. -/
def aliveNever : Nat → Bool := fun _ => false

/-- Aliveness oracle: alive at the first sample only. -/
def aliveOnce : Nat → Bool := fun k => decide (k = 0)

/-- A running operation with a thread action and a cancel action. -/
def opC2 : OpState := ⟨⟨"C2", some actBase, none, true, false⟩, true, .RUNNING, none⟩

/-- A collect-only operation still in state `NEW`. -/
def opC3new : OpState := ⟨⟨"C3", none, some cbTrue, false, false⟩, false, .NEW, none⟩

/-- A collect-only operation in state `STARTING`. -/
def opC3run : OpState := ⟨⟨"C3", none, some cbTrue, false, false⟩, false, .STARTING, none⟩

/-- `opC3run` after a completed `finish`. -/
def opC3stopped : OpState := { opC3run with state := OperationState.STOPPED }

/-- A running thread-backed operation without cancel action whose thread
was joined but produced no intermediate result. -/
def opC4 : OpState := ⟨⟨"C4", some actBase, none, false, false⟩, true, .RUNNING, none⟩

/-- An operation whose intermediate result was already written. -/
def opC4written : OpState :=
  ⟨⟨"C4w", some actBase, none, false, false⟩, true, .RUNNING,
   some (PyRes.mout (MOutput.base true none))⟩

/-- A collect-only operation in state `STARTING` (for the no-thread
`finish` path). -/
def opC6 : OpState := ⟨⟨"C6", none, some cbTrue, false, false⟩, false, .STARTING, none⟩

/-- A task holding a finished flow-test result with no
`_aggregate_output` override. -/
def taskC1 : TaskAggSt := ⟨some (MOutput.flowTest ⟨true, none, 1⟩), none⟩

/-- An aggregator whose primary slot is already occupied. -/
def aggOcc : MAggOut := ⟨some ⟨true, none, 0⟩, []⟩

/-- A sample pod record. -/
def podS : PodInfo := ⟨"pod", .NORMAL, true, 0⟩

/-- Metadata of a netperf run. -/
def mdS : TestMetadata := ⟨false, 1, .NETPERF_TCP_STREAM, podS, podS⟩

/-- A first flow-test output occupying the primary slot. -/
def ioFirst : IperfOutput := ⟨"netperf-first", [], mdS⟩

/-- A second flow-test output written over the occupied slot. -/
def ioSecond : IperfOutput := ⟨"netperf-second", [], mdS⟩

/-- An aggregated record whose primary slot already holds `ioFirst`. -/
def aggNetOcc : TftAggregateOutput := ⟨some ioFirst, []⟩

/-- Metadata of an iperf TCP run with test-case id 1. -/
def mdE : TestMetadata := ⟨false, 1, .IPERF_TCP, podS, podS⟩

/-- A flow-test entry whose raw result reports an error (its computed
bitrate is 0). -/
def entryE : IperfOutput := ⟨"iperf-cmd", [("error", PyVal.str "boom")], mdE⟩

/-- An evaluator config with threshold 0 for this test case. -/
def cfgZero : List (String × List (Nat × ThresholdCfg)) := [("IPERF_TCP", [(1, ⟨0, 0⟩)])]

/-- An evaluator config with threshold 2 for the same test case. -/
def cfgTwo : List (String × List (Nat × ThresholdCfg)) := [("IPERF_TCP", [(1, ⟨2, 2⟩)])]

/-- The evaluated result of `entryE` under `cfgZero`. -/
def resTrue : TestResult := ⟨1, .IPERF_TCP, false, true, ⟨0, 0⟩⟩

/-- The evaluated result of `entryE` under `cfgTwo`. -/
def resFalse : TestResult := ⟨1, .IPERF_TCP, false, false, ⟨0, 0⟩⟩

/-- A task with no stored setup operation. -/
def taskEmpty : TaskSt := ⟨none, none, none⟩

/-- `finishTail2` leaves the event trace unchanged. -/
theorem finishTail2_fst (s : OpState) (evs : List FinishEv) (f : Bool) :
    (finishTail2 s evs f).1 = evs := by
  unfold finishTail2
  split
  · split <;> rfl
  · split
    · rfl
    · split
      · split <;> rfl
      · rfl

/-- `finishTail` leaves the event trace unchanged. -/
theorem finishTail_fst (th : Bool) (s : OpState) (evs : List FinishEv)
    (f : Bool) : (finishTail th s evs f).1 = evs := by
  unfold finishTail
  split <;> split <;> first | exact finishTail2_fst _ _ _ | rfl

/-- A successful `finishTail2` leaves the operation in state `STOPPED`. -/
theorem finishTail2_ok_state (s : OpState) (evs : List FinishEv) (f : Bool)
    (out : MOutput) (sfin : OpState)
    (h : (finishTail2 s evs f).2 = .ok (out, sfin)) :
    sfin.state = OperationState.STOPPED := by
  unfold finishTail2 at h
  split at h
  · split at h
    · exact absurd h (by simp)
    · simp only [Except.ok.injEq, Prod.mk.injEq] at h
      rw [← h.2]
  · split at h
    · simp only [Except.ok.injEq, Prod.mk.injEq] at h
      rw [← h.2]
    · split at h
      · split at h
        · simp only [Except.ok.injEq, Prod.mk.injEq] at h
          rw [← h.2]
        · exact absurd h (by simp)
      · simp only [Except.ok.injEq, Prod.mk.injEq] at h
        rw [← h.2]

/-- A successful `finishTail` leaves the operation in state `STOPPED`. -/
theorem finishTail_ok_state (th : Bool) (s : OpState) (evs : List FinishEv)
    (f : Bool) (out : MOutput) (sfin : OpState)
    (h : (finishTail th s evs f).2 = .ok (out, sfin)) :
    sfin.state = OperationState.STOPPED := by
  unfold finishTail at h
  split at h <;> split at h <;>
    first
      | exact finishTail2_ok_state _ _ _ _ _ h
      | exact absurd h (by simp)

/-- A successful `finishJoins` leaves the operation in state `STOPPED`. -/
theorem finishJoins_ok_state (s1 : OpState) (t : Option ℚ) (a : Nat → Bool)
    (f : Bool) (out : MOutput) (sfin : OpState)
    (h : (finishJoins s1 t a f).2 = .ok (out, sfin)) :
    sfin.state = OperationState.STOPPED := by
  unfold finishJoins at h
  split at h
  · split at h
    · split at h
      · exact absurd h (by simp)
      · exact finishTail_ok_state _ _ _ _ _ _ h
    · split at h
      · exact absurd h (by simp)
      · exact finishTail_ok_state _ _ _ _ _ _ h
  · exact finishTail_ok_state _ _ _ _ _ _ h

/-- `finish` outside `STARTING`/`RUNNING` fails the state assertion. -/
theorem finish_bad_state (s : OpState) (t : Option ℚ) (a : Nat → Bool)
    (f : Bool)
    (h : ¬ (s.state = OperationState.STARTING ∨ s.state = OperationState.RUNNING)) :
    (finish s t a f).2 = .error .assertFail := by
  unfold finish access_thread finishTail
  by_cases hs : s.threadStarted <;>
    by_cases hta : s.cfg.thread_action.isSome <;>
      simp [hs, hta, h]

/-- A successful `finish` leaves the operation in state `STOPPED`. -/
theorem finish_ok_state (s : OpState) (t : Option ℚ) (a : Nat → Bool)
    (f : Bool) (out : MOutput) (sfin : OpState)
    (h : (finish s t a f).2 = .ok (out, sfin)) :
    sfin.state = OperationState.STOPPED := by
  unfold finish at h
  split at h
  · split at h
    · exact finishJoins_ok_state _ _ _ _ _ _ h
    · exact absurd h (by simp)
  · exact finishTail_ok_state _ _ _ _ _ _ h

/-- C1 (counterexample): with the aggregator's primary slot already
holding `ioFirst`, `NetPerfClient.output` does not raise; it silently
overwrites the slot with its own flow-test result. -/
theorem C1_counterexample :
    aggNetOcc.flow_test = some ioFirst ∧
    ioFirst.command ≠ ioSecond.command ∧
    netperf_client_output (some ioSecond) aggNetOcc =
      .ok { flow_test := some ioSecond, plugins := [] } := by
  exact ⟨rfl, by decide, rfl⟩

/-- C1 (amended): `Task.aggregate_output` raises `RuntimeError` whenever a
task holds a primary flow-test result and the aggregator's primary slot is
already occupied; but this does not extend to every task role that writes
a primary result, since `NetPerfClient.output` writes the slot without the
check. -/
theorem C1_primary_slot_unique :
    ∀ (t : TaskAggSt) (out : MAggOut) (ft : FlowTestOutputM),
    t.result = some (MOutput.flowTest ft) →
    out.flow_test.isSome = true →
    task_aggregate_output t out =
      .error (.runtimeError "There can only be one FlowTestOutput") := by
  intro t out ft h1 h2
  simp only [task_aggregate_output, h1]
  simp [MOutput.isAggregatable, h2]

/-- C1 (witness): a concrete task with a flow-test result meets an
occupied aggregator and raises. -/
theorem C1_primary_slot_unique_witness :
    task_aggregate_output taskC1 aggOcc =
      .error (.runtimeError "There can only be one FlowTestOutput") :=
  C1_primary_slot_unique taskC1 aggOcc ⟨true, none, 1⟩ rfl rfl

/-- C5: when `finish` has concurrently advanced the state to `STOPPING`
(or `STOPPED`), `_start_wait_ready`'s guard compares the int enum value 4
(resp. 5) with the tuple value `(2,)` and raises `TypeError`, instead of
returning with the state unchanged; for `RUNNING` (tuple `(3,)` vs tuple
`(2,)`) the early return works as intended. -/
theorem C5_wait_ready_type_error : ∀ s2 : OperationState,
    start_wait_ready OperationState.STOPPING s2 = .error .typeError ∧
    start_wait_ready OperationState.STOPPED s2 = .error .typeError ∧
    pyGtValue (stateValue OperationState.STOPPING) (stateValue OperationState.STARTING) =
      .error .typeError ∧
    start_wait_ready OperationState.RUNNING s2 = .ok OperationState.RUNNING := by
  intro s2
  exact ⟨rfl, rfl, rfl, rfl⟩

/-- C7: the constructor accepts a slot combination exactly when some
action is provided and a cancel action comes with a thread action, and the
two rejected combinations raise the matching `ValueError`s. -/
theorem C7_ctor_validation :
    (∀ (ln : String) (ta : Option (Unit → PyRes))
       (ca : Option (Option PyRes → MOutput)) (hc hw : Bool),
      exceptOk (mk_task_operation ln ta ca hc hw) =
        ((ta.isSome || ca.isSome) && (!hc || ta.isSome))) ∧
    (∀ (ln : String) (hc hw : Bool),
      mk_task_operation ln none none hc hw =
        .error (.valueError "either thread_action or collect_action must be provided")) ∧
    (∀ (ln : String) (ca : Option PyRes → MOutput) (hw : Bool),
      mk_task_operation ln none (some ca) true hw =
        .error (.valueError "cannot set cancel_action without thread_action")) := by
  refine ⟨?_, ?_, ?_⟩
  · intro ln ta ca hc hw
    cases ta <;> cases ca <;> cases hc <;> rfl
  · intro ln hc hw
    rfl
  · intro ln ca hw
    rfl

/-- C8: after `reset(3)`, no caller is released while only 2 have
arrived, the 3rd arrival releases callers 1-3, and a 4th caller is not
released (it waits for a next full cohort). -/
theorem C8_barrier_release :
    SyncBarrier.released (afterCalls 3 2) 1 = false ∧
    SyncBarrier.released (afterCalls 3 2) 2 = false ∧
    SyncBarrier.released (afterCalls 3 2) 3 = false ∧
    SyncBarrier.released (afterCalls 3 3) 1 = true ∧
    SyncBarrier.released (afterCalls 3 3) 2 = true ∧
    SyncBarrier.released (afterCalls 3 3) 3 = true ∧
    SyncBarrier.released (afterCalls 3 4) 4 = false ∧
    SyncBarrier.released (afterCalls 3 4) 1 = true := by
  decide

/-- C10: after one `finish_setup` returns, a second call is a no-op: it
returns the task unchanged and finishes no operation; and a task with no
stored setup operation returns immediately. -/
theorem C10_finish_setup_idempotent :
    ∀ (t : TaskSt) (a : Nat → Bool) (f : Bool) (a2 : Nat → Bool) (f2 : Bool),
    task_finish_setup (task_finish_setup t a f).1 a2 f2 =
      ((task_finish_setup t a f).1, none) ∧
    (t.setup_operation = none → task_finish_setup t a f = (t, none)) := by
  intro t a f a2 f2
  cases h : t.setup_operation <;> simp [task_finish_setup, h]

/-- C10 (witness): on a task with no setup operation the call returns the
task unchanged without finishing anything. -/
theorem C10_finish_setup_witness :
    task_finish_setup taskEmpty aliveNever false = (taskEmpty, none) :=
  (C10_finish_setup_idempotent taskEmpty aliveNever false aliveNever false).2 rfl

/-- C3: `finish` fails the state assertion outside `STARTING`/`RUNNING`;
a successful `finish` leaves the state `STOPPED`, so a second `finish`
always fails the assertion. -/
theorem C3_finish_never_twice :
    ∀ (s : OpState) (t : Option ℚ) (a : Nat → Bool) (f : Bool)
      (t2 : Option ℚ) (a2 : Nat → Bool) (f2 : Bool),
    (¬ (s.state = OperationState.STARTING ∨ s.state = OperationState.RUNNING) →
      (finish s t a f).2 = .error .assertFail) ∧
    (∀ out sfin, (finish s t a f).2 = .ok (out, sfin) →
      sfin.state = OperationState.STOPPED ∧
      (finish sfin t2 a2 f2).2 = .error .assertFail) := by
  intro s t a f t2 a2 f2
  refine ⟨finish_bad_state s t a f, ?_⟩
  intro out sfin h
  have hst := finish_ok_state s t a f out sfin h
  refine ⟨hst, finish_bad_state sfin t2 a2 f2 ?_⟩
  rw [hst]
  simp

/-- C3 (witness): a collect-only operation still in `NEW` fails the
assertion, and one finished from `STARTING` fails it on the second call. -/
theorem C3_finish_never_twice_witness :
    (finish opC3new none aliveNever false).2 = .error .assertFail ∧
    (finish opC3stopped none aliveNever false).2 = .error .assertFail := by
  have h1 := C3_finish_never_twice opC3new none aliveNever false none aliveNever false
  have h2 := C3_finish_never_twice opC3run none aliveNever false none aliveNever false
  refine ⟨h1.1 (by decide), ?_⟩
  exact (h2.2 (cbTrue none) opC3stopped rfl).2

/-- C4 (counterexample): a thread-backed operation whose thread was
reported dead but left no intermediate result makes `finish` return a
failure `BaseOutput` (`success=False`) — a recoverable path, not an
assertion failure. -/
theorem C4_counterexample :
    finishOutput (finish opC4 (some 3) aliveOnce false) =
      some (MOutput.base false (some "failure to get thread result")) ∧
    finishErr (finish opC4 (some 3) aliveOnce false) = none ∧
    (finish opC4 (some 3) aliveOnce false).1 = [FinishEv.join (some 3)] := by
  exact ⟨rfl, rfl, rfl⟩

/-- C4 (amended): the intermediate result is written exactly once under
the lock — `_run_thread_action` fails its assertion when the slot is
already occupied and otherwise performs the single write; but a missing
result at read time in `finish` produces a failure output rather than an
assertion failure (see the counterexample). -/
theorem C4_write_once : ∀ (s : OpState),
    (s.intermediate.isSome = true → run_thread_action s = .error .assertFail) ∧
    (∀ act, s.intermediate = none → s.cfg.thread_action = some act →
      run_thread_action s = .ok { s with intermediate := some (act ()) }) := by
  intro s
  constructor
  · intro h
    simp [run_thread_action, h]
  · intro act h1 h2
    simp [run_thread_action, h1, h2]

/-- C4 (witness): the double write fails the assertion on a concrete
operation, and the first write succeeds on a fresh one. -/
theorem C4_write_once_witness :
    run_thread_action opC4written = .error .assertFail ∧
    run_thread_action opC4 = .ok { opC4 with intermediate := some (actBase ()) } := by
  refine ⟨(C4_write_once opC4written).1 rfl, ?_⟩
  exact (C4_write_once opC4).2 actBase rfl rfl

/-- C6: for an operation with only a `collect_action`, `finish` performs
no join, spawns no thread, and returns exactly the collector's result
(called with no argument). -/
theorem C6_collect_only :
    ∀ (s : OpState) (cb : Option PyRes → MOutput) (t : Option ℚ)
      (a : Nat → Bool) (f : Bool),
    s.cfg.thread_action = none →
    s.cfg.collect_action = some cb →
    s.threadStarted = false →
    (s.state = OperationState.STARTING ∨ s.state = OperationState.RUNNING) →
    finish s t a f = ([], .ok (cb none, { s with state := OperationState.STOPPED })) ∧
    (access_thread s).1 = false ∧ (access_thread s).2 = s := by
  intro s cb t a f h1 h2 h3 h4
  have hacc : access_thread s = (false, s) := by
    simp [access_thread, h3, h1]
  refine ⟨?_, by rw [hacc], by rw [hacc]⟩
  have e1 : finish s t a f = finishTail false s [] f := by
    unfold finish
    rw [hacc]
  have e2 : finishTail false s [] f = finishTail2 s [] f := by
    unfold finishTail
    rw [if_neg Bool.false_ne_true, if_pos h4]
  rw [e1, e2]
  unfold finishTail2
  simp only [h1, h2]

/-- C6 (witness): a concrete collect-only operation returns the
collector's output with an empty event trace. -/
theorem C6_collect_only_witness :
    finish opC6 none aliveNever false =
      ([], .ok (cbTrue none, { opC6 with state := OperationState.STOPPED })) :=
  (C6_collect_only opC6 cbTrue none aliveNever false rfl rfl rfl (Or.inl rfl)).1

/-- C2: for an operation with a thread action and a cancel action,
`finish(timeout=T)` first joins with a zero bound; if the thread is still
alive it invokes the cancel action and joins again bounded by `T`; and if
the thread is still alive after the second join it raises `RuntimeError`
rather than swallowing the condition. -/
theorem C2_cancel_join_sequence :
    ∀ (s : OpState) (T : Option ℚ) (alive : Nat → Bool) (f : Bool),
    s.cfg.thread_action.isSome = true →
    s.cfg.has_cancel = true →
    (s.state = OperationState.STARTING ∨ s.state = OperationState.RUNNING) →
    (finish s T alive f).1.head? = some (FinishEv.join (some 0)) ∧
    (alive 0 = true →
      (finish s T alive f).1 =
        [FinishEv.join (some 0), FinishEv.cancel, FinishEv.join T]) ∧
    (alive 0 = true → alive 1 = true →
      (finish s T alive f).2 =
        .error (.runtimeError "Thread did not terminate within timeout")) := by
  intro s T alive f h1 h2 h3
  have hex : ∃ s2 : OpState,
      access_thread s = (true, s2) ∧ s2.cfg = s.cfg ∧ s2.state = s.state := by
    by_cases hs : s.threadStarted
    · exact ⟨s, by simp [access_thread, hs], rfl, rfl⟩
    · exact ⟨{ s with threadStarted := true }, by simp [access_thread, hs, h1],
             rfl, rfl⟩
  obtain ⟨s2, hacc, hcfg, hst⟩ := hex
  have hfin : finish s T alive f =
      finishJoins { s2 with state := OperationState.STOPPING } T alive f := by
    unfold finish
    rw [hacc]
    exact if_pos (by rw [hst]; exact h3)
  rw [hfin]
  cases ha0 : alive 0 <;> cases ha1 : alive 1 <;>
    simp [finishJoins, hcfg, h2, ha0, ha1, finishTail_fst]

/-- C2 (witness): a concrete cancellable operation whose thread never
dies produces the zero join, the cancel, the bounded join, and the raised
error. -/
theorem C2_cancel_join_sequence_witness :
    (finish opC2 (some 7) aliveAlways false).1 =
      [FinishEv.join (some 0), FinishEv.cancel, FinishEv.join (some 7)] ∧
    (finish opC2 (some 7) aliveAlways false).2 =
      .error (.runtimeError "Thread did not terminate within timeout") := by
  have h := C2_cancel_join_sequence opC2 (some 7) aliveAlways false rfl rfl
    (Or.inr rfl)
  exact ⟨h.2.1 rfl, h.2.2 rfl rfl⟩

/-- C9 (counterexample): the same aggregated flow-test entry evaluates to
success under one threshold config and to failure under another, so no
entry-intrinsic success flag exists: success is derived by the evaluator
from its config, not carried by the record entry. -/
theorem C9_counterexample :
    eval_flow_test cfgZero entryE = .ok resTrue ∧
    eval_flow_test cfgTwo entryE = .ok resFalse ∧
    resTrue.success = true ∧
    resFalse.success = false ∧
    ¬ ∃ g : IperfOutput → Bool, ∀ cfg run r,
        eval_flow_test cfg run = .ok r → r.success = g run := by
  refine ⟨rfl, rfl, rfl, rfl, ?_⟩
  rintro ⟨g, hg⟩
  have h1 : resTrue.success = g entryE := hg cfgZero entryE resTrue rfl
  have h2 : resFalse.success = g entryE := hg cfgTwo entryE resFalse rfl
  rw [← h2] at h1
  exact Bool.noConfusion h1

/-- C9 (amended): the aggregated record is exactly one optional primary
flow-test entry plus an ordered list of plugin entries; each evaluated
entry's success flag is not stored in the entry but derived by the
evaluator from the configured threshold and the computed bitrate. -/
theorem C9_record_shape :
    ∀ (o : Option IperfOutput) (ps : List PluginOutput) (agg : TftAggregateOutput)
      (cfg : List (String × List (Nat × ThresholdCfg))) (run : IperfOutput)
      (r : TestResult),
    (TftAggregateOutput.mk o ps).flow_test = o ∧
    (TftAggregateOutput.mk o ps).plugins = ps ∧
    TftAggregateOutput.mk agg.flow_test agg.plugins = agg ∧
    (eval_flow_test cfg run = .ok r →
      (r.success = true ↔
        ∃ th br,
          get_threshold cfg run.tft_metadata.test_case_id
              run.tft_metadata.test_type run.tft_metadata.reverse = .ok th ∧
          calculate_gbps run.result run.tft_metadata.test_type = .ok br ∧
          th ≤ br.tx ∧ th ≤ br.rx)) := by
  intro o ps agg cfg run r
  refine ⟨rfl, rfl, rfl, ?_⟩
  intro h
  unfold eval_flow_test at h
  split at h
  · exact absurd h (by simp)
  · rename_i th0 hg
    split at h
    · exact absurd h (by simp)
    · rename_i br0 hcg
      simp only [Except.ok.injEq] at h
      subst h
      constructor
      · intro hs
        have hp : is_passing th0 br0 = true := hs
        simp only [is_passing, Bool.and_eq_true, decide_eq_true_eq] at hp
        exact ⟨th0, br0, hg, hcg, hp.1, hp.2⟩
      · rintro ⟨th1, br1, hg1, hc1, hle1, hle2⟩
        have e1 : th0 = th1 := by
          have := hg.symm.trans hg1
          simpa using this
        have e2 : br0 = br1 := by
          have := hcg.symm.trans hc1
          simpa using this
        subst e1
        subst e2
        show is_passing th0 br0 = true
        simp [is_passing, hle1, hle2]

/-- C9 (witness): the shape accessors and the derived-success direction
at a concrete entry and config. -/
theorem C9_record_shape_witness :
    (TftAggregateOutput.mk (some entryE) []).flow_test = some entryE ∧
    (∃ th br,
      get_threshold cfgZero entryE.tft_metadata.test_case_id
          entryE.tft_metadata.test_type entryE.tft_metadata.reverse = .ok th ∧
      calculate_gbps entryE.result entryE.tft_metadata.test_type = .ok br ∧
      th ≤ br.tx ∧ th ≤ br.rx) := by
  have h := C9_record_shape (some entryE) [] ⟨some entryE, []⟩ cfgZero entryE resTrue
  exact ⟨h.1, (h.2.2.2 rfl).mp rfl⟩
